import Mathlib

/-!
Verification of the control loop of `src/launchPad.ino`, the Compressed Air
Rocket Launch Pad sketch.

The sketch is a single-threaded control loop (`loop` calls `updateData` over
and over).  We embed one execution of `updateData` as a pure function on an
explicit state record, parameterised by the per-tick inputs (the millisecond
clock, the two analog pressure readings, and the command fields exposed by
the Comm Link after its inbound poll).  Besides the successor state, the
embedded tick returns the ordered list of observable events it performs
(output-line transitions, the blocking valve hold, pressure samples and
telemetry sends), so that ordering properties inside a tick can be stated.

The `LaunchDataPacket` class lives in `LaunchDataPacket.h`, which is not
under `src/`; its methods used by the sketch are modelled from the spec and
marked `Modelled from the spec:` in their doc comments.
-/

namespace LaunchPad

/-- The five digital output lines of the Actuator Panel: safety LED
(PORTD bit 2), error LED (PORTD bit 3), pad-1 launch valve (PORTD bit 6),
pad-2 launch valve (PORTD bit 5) and the compressor relay (PORTD bit 4). -/
inductive Chan
  | safetyLed
  | errorLed
  | pad1Valve
  | pad2Valve
  | compressor
deriving DecidableEq

/-- Levels of the five output lines (the relevant bits of PORTD).  All lines
are low after power-on reset. -/
structure Outputs where
  safetyLed : Bool := false
  errorLed : Bool := false
  pad1Valve : Bool := false
  pad2Valve : Bool := false
  compressor : Bool := false
deriving DecidableEq

/-- Write one output line: `bitSet` (`b = true`) or `bitClear` (`b = false`)
on the corresponding port bit. -/
def Outputs.set (o : Outputs) : Chan → Bool → Outputs
  | .safetyLed, b => { o with safetyLed := b }
  | .errorLed, b => { o with errorLed := b }
  | .pad1Valve, b => { o with pad1Valve := b }
  | .pad2Valve, b => { o with pad2Valve := b }
  | .compressor, b => { o with compressor := b }

/-- Modelled from the spec: the state cached by the `LaunchDataPacket`
instance `data` (class declared in `LaunchDataPacket.h`, not under `src/`).
Per spec §3 it is the CommandSnapshot — master-armed / launch-request /
compressor-request / pad-selection fields of the most recent decoded inbound
message plus the Watchdog-derived `timedOut` boolean, all owned and mutated
by the Comm Link collaborator — together with the two stored chamber
pressure readings written by `setPressure1` / `setPressure2`. -/
structure Packet where
  masterTimedOut : Bool := false
  masterArmed : Bool := false
  masterLaunchSet : Bool := false
  compressorOn : Bool := false
  pad1Selected : Bool := false
  pad2Selected : Bool := false
  pressure1 : Nat := 0
  pressure2 : Nat := 0
deriving DecidableEq

/-- The module-level mutable state of the sketch: `pulse` (launchPad.ino
line 95), `timeSinceLastPulse` (line 101, despite its name it stores the
`millis()` timestamp of the last LED toggle), `wasRocketLaunched` (line 113,
the launch debounce latch), the output port levels, and the
`LaunchDataPacket` instance `data` (line 130). -/
structure PadState where
  pulse : Bool := false
  timeSinceLastPulse : Int := 0
  wasRocketLaunched : Bool := false
  out : Outputs := {}
  packet : Packet := {}
deriving DecidableEq

/-- The environment-supplied values of one tick: `now` is the value returned
by `millis()` during the tick, `p1`/`p2` the analog reads of the two chamber
pressure sensors at the top-of-tick `readPressure`, `p1post`/`p2post` the
analog reads of the post-firing re-sample inside `launchRocket`, and the
`rx*` fields the CommandSnapshot contents exposed by the `data` instance
after this tick's `readZigbee` poll (if no new message arrived they simply
repeat the previous snapshot). -/
structure TickInput where
  now : Int := 0
  p1 : Nat := 0
  p2 : Nat := 0
  p1post : Nat := 0
  p2post : Nat := 0
  rxTimedOut : Bool := false
  rxArmed : Bool := false
  rxLaunchSet : Bool := false
  rxCompressorOn : Bool := false
  rxPad1 : Bool := false
  rxPad2 : Bool := false
deriving DecidableEq

/-- Observable events of one tick, in program order: an analog sample of
both chamber pressures stored into the packet, an outbound telemetry packet
carrying the stored pressures, a write to an output line, and the blocking
`delay` that holds the valves open during a firing. -/
inductive Event
  | samplePressure (p1 p2 : Nat)
  | telemetry (p1 p2 : Nat)
  | setOut (c : Chan) (b : Bool)
  | hold (d : Nat)
deriving DecidableEq

/-- `_pulse_halfwidth_` (launchPad.ino line 88): half period of the
heartbeat pulse, 100 ms. -/
def pulse_halfwidth : Int := 100

/-- `_zigbee_timeout_` (launchPad.ino line 89): communication watchdog
window, 1000 ms (evaluated inside `LaunchDataPacket.didMasterTimeout`). -/
def zigbee_timeout : Int := 1000

/-- `readPressure` (launchPad.ino lines 206-209): store the two analog
pressure reads into the packet via `setPressure1` / `setPressure2`. -/
def readPressure (s : PadState) (i : TickInput) : PadState × List Event :=
  ({ s with packet := { s.packet with pressure1 := i.p1, pressure2 := i.p2 } },
   [Event.samplePressure i.p1 i.p2])

/-- Modelled from the spec: `LaunchDataPacket.sendDataToMaster` (declared in
`LaunchDataPacket.h`, not under `src/`), reached through `writeZigbeeMaster`
(launchPad.ino lines 175-177).  Spec §6: `sendTelemetry(PressureReading, …)`
pushes an outbound packet carrying the stored pressure readings. -/
def sendDataToMaster (p : Packet) : List Event :=
  [Event.telemetry p.pressure1 p.pressure2]

/-- Heartbeat section of `updateData` (launchPad.ino lines 247-255):
`pulseTime = millis() - timeSinceLastPulse`; when it exceeds
`_pulse_halfwidth_` record the new timestamp, toggle `pulse`
(`pulse = pulse ^ true`), and on the rising edge send a telemetry packet
(`writeZigbeeMaster`). -/
def pulseSection (s : PadState) (i : TickInput) : PadState × List Event :=
  if i.now - s.timeSinceLastPulse > pulse_halfwidth then
    let s2 : PadState :=
      { s with timeSinceLastPulse := i.now, pulse := Bool.xor s.pulse true }
    if s2.pulse then (s2, sendDataToMaster s2.packet) else (s2, [])
  else (s, [])

/-- Modelled from the spec: `LaunchDataPacket.readDataFromXbee` (declared in
`LaunchDataPacket.h`, not under `src/`), reached through `readZigbee`
(launchPad.ino lines 166-168).  Spec §6: the Comm Link poll decodes any
waiting inbound message and updates the CommandSnapshot (including the
Watchdog-derived `timedOut` boolean) as a side effect; the stored pressure
readings are owned by the core and untouched. -/
def readDataFromXbee (p : Packet) (i : TickInput) : Packet :=
  { p with
    masterTimedOut := i.rxTimedOut
    masterArmed := i.rxArmed
    masterLaunchSet := i.rxLaunchSet
    compressorOn := i.rxCompressorOn
    pad1Selected := i.rxPad1
    pad2Selected := i.rxPad2 }

/-- Modelled from the spec: `LaunchDataPacket.compressorOff` (declared in
`LaunchDataPacket.h`, not under `src/`), called in the timeout branch of
`updateData` (launchPad.ino line 261).  Spec §4.3 step 1 and the Fail-safe
glossary entry: on timeout "force compressor off" — the compressor output
line is driven off and the snapshot's compressor-request flag cleared. -/
def compressorOff (s : PadState) : PadState × List Event :=
  ({ s with
      packet := { s.packet with compressorOn := false }
      out := s.out.set .compressor false },
   [Event.setOut .compressor false])

/-- Modelled from the spec: `LaunchDataPacket.masterArmIsOff` (declared in
`LaunchDataPacket.h`, not under `src/`), called in the timeout branch of
`updateData` (launchPad.ino line 262).  Spec §4.3 step 1: clear the latched
master-armed state the Comm Link exposes. -/
def masterArmIsOff (s : PadState) : PadState :=
  { s with packet := { s.packet with masterArmed := false } }

/-- Modelled from the spec: `LaunchDataPacket.masterLaunchClear` (declared
in `LaunchDataPacket.h`, not under `src/`), called in the timeout branch of
`updateData` (launchPad.ino line 263).  Spec §4.3 step 1: clear the latched
launch-request state the Comm Link exposes. -/
def masterLaunchClear (s : PadState) : PadState :=
  { s with packet := { s.packet with masterLaunchSet := false } }

/-- `blinkErrorLed` (launchPad.ino lines 182-188): drive the error LED to
the current heartbeat phase `pulse`. -/
def blinkErrorLed (s : PadState) : PadState × List Event :=
  if s.pulse then
    ({ s with out := s.out.set .errorLed true }, [Event.setOut .errorLed true])
  else
    ({ s with out := s.out.set .errorLed false }, [Event.setOut .errorLed false])

/-- `blinkSafetyLed` (launchPad.ino lines 193-199): drive the safety LED to
the current heartbeat phase `pulse`.  Defined in the sketch but never
called from `updateData`, `setup` or `loop`. -/
def blinkSafetyLed (s : PadState) : PadState × List Event :=
  if s.pulse then
    ({ s with out := s.out.set .safetyLed true }, [Event.setOut .safetyLed true])
  else
    ({ s with out := s.out.set .safetyLed false }, [Event.setOut .safetyLed false])

/-- `launchRocket` (launchPad.ino lines 214-232): if the debounce latch
`wasRocketLaunched` is set, return immediately; otherwise set the latch,
clear the compressor bit, set the pad-1 valve bit iff `isPad1Selected()`,
set the pad-2 valve bit iff `isPad2Selected()`, `delay(100)`, clear both
valve bits, then re-read both pressures into the packet. -/
def launchRocket (s : PadState) (i : TickInput) : PadState × List Event :=
  if s.wasRocketLaunched then (s, [])
  else
    let s1 : PadState := { s with wasRocketLaunched := true }
    let s2 : PadState := { s1 with out := s1.out.set .compressor false }
    let a :=
      if s2.packet.pad1Selected then
        (({ s2 with out := s2.out.set .pad1Valve true } : PadState),
         [Event.setOut Chan.pad1Valve true])
      else (s2, ([] : List Event))
    let b :=
      if a.1.packet.pad2Selected then
        (({ a.1 with out := a.1.out.set .pad2Valve true } : PadState),
         [Event.setOut Chan.pad2Valve true])
      else (a.1, ([] : List Event))
    let s5 : PadState :=
      { b.1 with out := (b.1.out.set .pad1Valve false).set .pad2Valve false }
    let s6 : PadState :=
      { s5 with packet := { s5.packet with pressure1 := i.p1post, pressure2 := i.p2post } }
    (s6,
     Event.setOut Chan.compressor false :: a.2 ++ b.2 ++
       [Event.hold 100, Event.setOut Chan.pad1Valve false,
        Event.setOut Chan.pad2Valve false, Event.samplePressure i.p1post i.p2post])

/-- Sequencer section of `updateData` (launchPad.ino lines 260-276): when
`didMasterTimeout()` reports a communication error, run the fail-safe branch
(`compressorOff`, `masterArmIsOff`, `masterLaunchClear`, `blinkErrorLed`);
otherwise when `isMasterLaunchSet()` call `launchRocket`, and otherwise
clear the debounce latch and mirror `isCompressorOn()` onto the compressor
output bit. -/
def sequencer (s : PadState) (i : TickInput) : PadState × List Event :=
  if s.packet.masterTimedOut then
    let a := compressorOff s
    let s2 := masterLaunchClear (masterArmIsOff a.1)
    let b := blinkErrorLed s2
    (b.1, a.2 ++ b.2)
  else if s.packet.masterLaunchSet then
    launchRocket s i
  else
    let s2 : PadState := { s with wasRocketLaunched := false }
    if s2.packet.compressorOn then
      ({ s2 with out := s2.out.set .compressor true },
       [Event.setOut Chan.compressor true])
    else
      ({ s2 with out := s2.out.set .compressor false },
       [Event.setOut Chan.compressor false])

/-- `updateData` (launchPad.ino lines 240-277), one control-loop tick:
`readPressure`, the heartbeat section (phase toggle plus rising-edge
telemetry), `readZigbee` (the Comm Link inbound poll updating the
CommandSnapshot), then the sequencer branch on `didMasterTimeout()`.
Returns the successor state together with the tick's event list in program
order. -/
def updateData (s : PadState) (i : TickInput) : PadState × List Event :=
  let a := readPressure s i
  let b := pulseSection a.1 i
  let c : PadState := { b.1 with packet := readDataFromXbee b.1.packet i }
  let d := sequencer c i
  (d.1, a.2 ++ b.2 ++ d.2)

/-- The intermediate state of a tick right before the sequencer branch of
`updateData` runs: pressures sampled, heartbeat updated, CommandSnapshot
refreshed by the inbound poll. -/
def midState (s : PadState) (i : TickInput) : PadState :=
  { (pulseSection (readPressure s i).1 i).1 with
    packet := readDataFromXbee (pulseSection (readPressure s i).1 i).1.packet i }

/-- The state after `setup` (launchPad.ino lines 285-304): `pulse := false`,
all timers zero, the debounce latch clear, all output port bits at their
power-on-reset level (low). -/
def initialState : PadState := {}

/-- Run a list of ticks from a state (`loop`, launchPad.ino lines 311-313,
iterated). -/
def runTicks (s : PadState) : List TickInput → PadState
  | [] => s
  | i :: is => runTicks (updateData s i).1 is

/-- The firing sequence executes in this tick: the tick is not timed out,
the launch-request flag observed after the inbound poll is set, and the
debounce latch is clear, so `launchRocket` runs past its guard. -/
def fires (s : PadState) (i : TickInput) : Bool :=
  !i.rxTimedOut && i.rxLaunchSet && !s.wasRocketLaunched

/-- Number of ticks of the input list in which the firing sequence
executes. -/
def fireCount (s : PadState) : List TickInput → Nat
  | [] => 0
  | i :: is => (if fires s i then 1 else 0) + fireCount (updateData s i).1 is

/-- A concrete timed-out tick with every request field asserted, used by
witnesses. -/
def timeoutInput : TickInput :=
  { now := 50, p1 := 11, p2 := 12, rxTimedOut := true, rxArmed := true,
    rxLaunchSet := true, rxCompressorOn := true, rxPad1 := true, rxPad2 := true }

/-- A concrete live (non-timed-out) tick requesting a launch with pad 1
selected, used by witnesses. -/
def launchInput : TickInput :=
  { now := 10, p1 := 21, p2 := 22, p1post := 5, p2post := 6,
    rxLaunchSet := true, rxPad1 := true }

/-- A concrete live tick observing the launch-request flag false, used by
witnesses. -/
def idleInput : TickInput := { now := 20, p1 := 31, p2 := 32 }

/-- A concrete live tick whose clock is one past the half-period, so the
heartbeat phase flips to on, used by witnesses. -/
def risingInput : TickInput := { now := 101, p1 := 7, p2 := 9 }

/-- A reachable state with the debounce latch set: the successor of the
power-on state after one firing tick, used by witnesses. -/
def postLaunchState : PadState := (updateData initialState launchInput).1

/-- The heartbeat section emits no output-line write: its only possible
event is the rising-edge telemetry send. -/
theorem pulseSection_no_setOut (s : PadState) (i : TickInput) (c : Chan) (b : Bool) :
    Event.setOut c b ∉ (pulseSection s i).2 := by
  by_cases hf : i.now - s.timeSinceLastPulse > pulse_halfwidth <;>
    cases hp : s.pulse <;>
      simp [pulseSection, sendDataToMaster, hf, hp]

/-- The heartbeat section emits no pressure sample. -/
theorem pulseSection_no_sample (s : PadState) (i : TickInput) (p q : Nat) :
    Event.samplePressure p q ∉ (pulseSection s i).2 := by
  by_cases hf : i.now - s.timeSinceLastPulse > pulse_halfwidth <;>
    cases hp : s.pulse <;>
      simp [pulseSection, sendDataToMaster, hf, hp]

/-- Any telemetry event of the heartbeat section carries the pressures
currently stored in the packet, and one is emitted exactly on the flip of
the phase to on. -/
theorem pulseSection_telemetry (s : PadState) (i : TickInput) :
    ((∃ p q, Event.telemetry p q ∈ (pulseSection s i).2) ↔
      ((pulseSection s i).1.pulse = true ∧ s.pulse = false)) ∧
    ∀ p q, Event.telemetry p q ∈ (pulseSection s i).2 →
      p = s.packet.pressure1 ∧ q = s.packet.pressure2 := by
  by_cases hf : i.now - s.timeSinceLastPulse > pulse_halfwidth <;>
    cases hp : s.pulse <;>
      simp [pulseSection, sendDataToMaster, hf, hp]

/-- Fail-safe branch of the sequencer (launchPad.ino lines 260-264): on a
reported timeout the compressor-request flag and latched master-armed and
launch-request state are cleared, the compressor output is forced off, and
the error LED is driven to the heartbeat phase; nothing else changes, and
the only events are the compressor-off and error-LED writes. -/
theorem sequencer_timeout (s : PadState) (i : TickInput)
    (h : s.packet.masterTimedOut = true) :
    (sequencer s i).1 =
      { s with
        packet :=
          { s.packet with
            compressorOn := false
            masterArmed := false
            masterLaunchSet := false }
        out := (s.out.set .compressor false).set .errorLed s.pulse } ∧
    (sequencer s i).2 =
      [Event.setOut Chan.compressor false, Event.setOut Chan.errorLed s.pulse] := by
  cases hp : s.pulse <;>
    simp [sequencer, compressorOff, masterArmIsOff, masterLaunchClear, blinkErrorLed,
      Outputs.set, h, hp]

/-- Live branch of the sequencer with the launch-request flag set
(launchPad.ino lines 266-267): it runs `launchRocket`. -/
theorem sequencer_fire (s : PadState) (i : TickInput)
    (ht : s.packet.masterTimedOut = false) (hl : s.packet.masterLaunchSet = true) :
    sequencer s i = launchRocket s i := by
  simp [sequencer, ht, hl]

/-- Live branch of the sequencer with the launch-request flag observed
false (launchPad.ino lines 268-274): the debounce latch is cleared and the
compressor output mirrors the compressor-request flag. -/
theorem sequencer_idle (s : PadState) (i : TickInput)
    (ht : s.packet.masterTimedOut = false) (hl : s.packet.masterLaunchSet = false) :
    (sequencer s i).1 =
      { s with wasRocketLaunched := false,
               out := s.out.set .compressor s.packet.compressorOn } ∧
    (sequencer s i).2 = [Event.setOut Chan.compressor s.packet.compressorOn] := by
  cases hc : s.packet.compressorOn <;> simp [sequencer, Outputs.set, ht, hl, hc]

/-- `launchRocket` behind a set debounce latch (launchPad.ino lines
215-217): an immediate no-op. -/
theorem launchRocket_latched (s : PadState) (i : TickInput)
    (h : s.wasRocketLaunched = true) :
    launchRocket s i = (s, []) := by
  simp [launchRocket, h]

/-- State after an actual firing (launchPad.ino lines 218-231): latch set,
compressor bit and both valve bits clear, pressures replaced by the
post-fire re-sample; heartbeat state untouched. -/
theorem launchRocket_fire_state (s : PadState) (i : TickInput)
    (h : s.wasRocketLaunched = false) :
    (launchRocket s i).1 =
      { s with
        wasRocketLaunched := true
        out := ((s.out.set .compressor false).set .pad1Valve false).set
                 .pad2Valve false
        packet :=
          { s.packet with
            pressure1 := i.p1post
            pressure2 := i.p2post } } := by
  cases h1 : s.packet.pad1Selected <;> cases h2 : s.packet.pad2Selected <;>
    simp [launchRocket, Outputs.set, h, h1, h2]

/-- Event trace of an actual firing: compressor-off first, then the
valve-open writes for exactly the selected pads, then the 100 time-unit
hold, the two valve-close writes, and the post-fire pressure re-sample. -/
theorem launchRocket_fire_trace (s : PadState) (i : TickInput)
    (h : s.wasRocketLaunched = false) :
    ∃ pads : List Event,
      (launchRocket s i).2 =
        Event.setOut Chan.compressor false :: pads ++
          [Event.hold 100, Event.setOut Chan.pad1Valve false,
           Event.setOut Chan.pad2Valve false,
           Event.samplePressure i.p1post i.p2post] ∧
      (∀ p q, Event.samplePressure p q ∉ pads) ∧
      (∀ p q, Event.telemetry p q ∉ pads) ∧
      (Event.setOut Chan.pad1Valve true ∈ pads ↔ s.packet.pad1Selected = true) ∧
      (Event.setOut Chan.pad2Valve true ∈ pads ↔ s.packet.pad2Selected = true) := by
  cases h1 : s.packet.pad1Selected <;> cases h2 : s.packet.pad2Selected
  · exact ⟨[], by simp [launchRocket, h, h1, h2], by simp, by simp,
      by simp [h1], by simp [h2]⟩
  · exact ⟨[Event.setOut Chan.pad2Valve true], by simp [launchRocket, h, h1, h2],
      by simp, by simp, by simp [h1], by simp [h2]⟩
  · exact ⟨[Event.setOut Chan.pad1Valve true], by simp [launchRocket, h, h1, h2],
      by simp, by simp, by simp [h1], by simp [h2]⟩
  · exact ⟨[Event.setOut Chan.pad1Valve true, Event.setOut Chan.pad2Valve true],
      by simp [launchRocket, h, h1, h2], by simp, by simp, by simp [h1], by simp [h2]⟩

/-- The sequencer never emits a telemetry event: telemetry is sent only on
the heartbeat rising edge. -/
theorem sequencer_no_telemetry (s : PadState) (i : TickInput) (p q : Nat) :
    Event.telemetry p q ∉ (sequencer s i).2 := by
  cases ht : s.packet.masterTimedOut
  · cases hl : s.packet.masterLaunchSet
    · rw [(sequencer_idle s i ht hl).2]; simp
    · rw [sequencer_fire s i ht hl]
      cases hw : s.wasRocketLaunched
      · obtain ⟨pads, he, -, hnt, -, -⟩ := launchRocket_fire_trace s i hw
        rw [he]; simp [hnt]
      · rw [launchRocket_latched s i hw]; simp
  · rw [(sequencer_timeout s i ht).2]; simp

/-- The sequencer leaves the heartbeat phase and its flip timestamp
untouched. -/
theorem sequencer_preserves_clock (s : PadState) (i : TickInput) :
    (sequencer s i).1.pulse = s.pulse ∧
    (sequencer s i).1.timeSinceLastPulse = s.timeSinceLastPulse := by
  cases ht : s.packet.masterTimedOut
  · cases hl : s.packet.masterLaunchSet
    · rw [(sequencer_idle s i ht hl).1]; exact ⟨rfl, rfl⟩
    · rw [sequencer_fire s i ht hl]
      cases hw : s.wasRocketLaunched
      · rw [launchRocket_fire_state s i hw]; exact ⟨rfl, rfl⟩
      · rw [launchRocket_latched s i hw]; exact ⟨rfl, rfl⟩
  · rw [(sequencer_timeout s i ht).1]; exact ⟨rfl, rfl⟩

/-- One tick decomposes as: the top-of-tick pressure sample, then the
heartbeat events, then the sequencer run on the intermediate state. -/
theorem updateData_eq (s : PadState) (i : TickInput) :
    updateData s i =
      ((sequencer (midState s i) i).1,
        Event.samplePressure i.p1 i.p2 ::
          (pulseSection (readPressure s i).1 i).2 ++ (sequencer (midState s i) i).2) :=
  rfl

/-- Fields of the intermediate state: latch, outputs and heartbeat
timestamp-independent parts carried over from the tick-start state, the
CommandSnapshot refreshed to the polled values, the stored pressures equal
to this tick's sample, and the heartbeat phase already toggled when the
half-period has elapsed. -/
theorem midState_fields (s : PadState) (i : TickInput) :
    (midState s i).wasRocketLaunched = s.wasRocketLaunched ∧
    (midState s i).out = s.out ∧
    (midState s i).packet.masterTimedOut = i.rxTimedOut ∧
    (midState s i).packet.masterLaunchSet = i.rxLaunchSet ∧
    (midState s i).packet.compressorOn = i.rxCompressorOn ∧
    (midState s i).packet.pad1Selected = i.rxPad1 ∧
    (midState s i).packet.pad2Selected = i.rxPad2 ∧
    (midState s i).packet.pressure1 = i.p1 ∧
    (midState s i).packet.pressure2 = i.p2 ∧
    (midState s i).pulse =
      (if i.now - s.timeSinceLastPulse > pulse_halfwidth then !s.pulse else s.pulse) ∧
    (midState s i).timeSinceLastPulse =
      (if i.now - s.timeSinceLastPulse > pulse_halfwidth then i.now
       else s.timeSinceLastPulse) := by
  by_cases hf : i.now - s.timeSinceLastPulse > pulse_halfwidth <;>
    cases hp : s.pulse <;>
      simp [midState, pulseSection, readPressure, readDataFromXbee, sendDataToMaster, hf, hp]

/-- The debounce latch after one tick: untouched by the fail-safe branch,
and otherwise equal to the observed launch-request flag — a firing sets it,
a repeated request keeps it, an observed-false request clears it. -/
theorem updateData_latch (s : PadState) (i : TickInput) :
    (updateData s i).1.wasRocketLaunched =
      if i.rxTimedOut = true then s.wasRocketLaunched else i.rxLaunchSet := by
  obtain ⟨hw, -, hto, hls, -, -, -, -, -, -, -⟩ := midState_fields s i
  rw [updateData_eq]
  cases ht : i.rxTimedOut
  · cases hl : i.rxLaunchSet
    · rw [(sequencer_idle _ i (hto.trans ht) (hls.trans hl)).1]; simp
    · cases hw2 : (midState s i).wasRocketLaunched
      · rw [sequencer_fire _ i (hto.trans ht) (hls.trans hl),
          launchRocket_fire_state _ i hw2]
        simp
      · rw [sequencer_fire _ i (hto.trans ht) (hls.trans hl),
          launchRocket_latched _ i hw2]
        simp [hw2]
  · rw [(sequencer_timeout _ i (hto.trans ht)).1]
    simp [hw]

/-- Running an appended tick list is running the two lists in order. -/
theorem runTicks_append (s : PadState) (l1 l2 : List TickInput) :
    runTicks s (l1 ++ l2) = runTicks (runTicks s l1) l2 := by
  induction l1 generalizing s with
  | nil => rfl
  | cons i is ih => simp only [List.cons_append, runTicks]; exact ih _

/-- While the debounce latch is set, a stretch of ticks none of which
observes the launch-request flag false (each tick either timed out, so the
flag is not observed, or observing it true) contains no firing and leaves
the latch set. -/
theorem fireCount_zero_of_latched (s : PadState) (l : List TickInput)
    (hw : s.wasRocketLaunched = true)
    (hl : ∀ i ∈ l, i.rxTimedOut = true ∨ i.rxLaunchSet = true) :
    fireCount s l = 0 ∧ (runTicks s l).wasRocketLaunched = true := by
  induction l generalizing s with
  | nil => exact ⟨rfl, hw⟩
  | cons i is ih =>
    have hi := hl i (by simp)
    have hlatch : (updateData s i).1.wasRocketLaunched = true := by
      rw [updateData_latch]
      rcases hi with h | h
      · simp [h, hw]
      · cases ht2 : i.rxTimedOut <;> simp [hw, h]
    have hfires : fires s i = false := by simp [fires, hw]
    obtain ⟨hc, hr⟩ := ih (updateData s i).1 hlatch (fun j hj => hl j (by simp [hj]))
    exact ⟨by simp [fireCount, hfires, hc], hr⟩

/-- From a clear debounce latch, a nonempty stretch of live ticks all
observing the launch-request flag true fires exactly once (on its first
tick). -/
theorem fireCount_one_of_clear (s : PadState) (l : List TickInput)
    (hw : s.wasRocketLaunched = false)
    (hl : ∀ i ∈ l, i.rxTimedOut = false ∧ i.rxLaunchSet = true)
    (hne : l ≠ []) :
    fireCount s l = 1 := by
  cases l with
  | nil => exact absurd rfl hne
  | cons i is =>
    obtain ⟨hit, hil⟩ := hl i (by simp)
    have hfires : fires s i = true := by simp [fires, hit, hil, hw]
    have hlatch : (updateData s i).1.wasRocketLaunched = true := by
      rw [updateData_latch]; simp [hit, hil]
    have hzero := (fireCount_zero_of_latched (updateData s i).1 is hlatch
      (fun j hj => Or.inr (hl j (by simp [hj])).2)).1
    simp [fireCount, hfires, hzero]

/-- A tick that starts with both pad valve outputs off ends with both off:
only a firing touches the valve bits and it clears both before returning. -/
theorem updateData_valves_off (s : PadState) (i : TickInput)
    (h1 : s.out.pad1Valve = false) (h2 : s.out.pad2Valve = false) :
    (updateData s i).1.out.pad1Valve = false ∧
    (updateData s i).1.out.pad2Valve = false := by
  obtain ⟨-, hout, hto, hls, -, -, -, -, -, -, -⟩ := midState_fields s i
  rw [updateData_eq]
  cases ht : i.rxTimedOut
  · cases hl : i.rxLaunchSet
    · rw [(sequencer_idle _ i (hto.trans ht) (hls.trans hl)).1]
      simp [Outputs.set, hout, h1, h2]
    · cases hw2 : (midState s i).wasRocketLaunched
      · rw [sequencer_fire _ i (hto.trans ht) (hls.trans hl),
          launchRocket_fire_state _ i hw2]
        simp [Outputs.set]
      · rw [sequencer_fire _ i (hto.trans ht) (hls.trans hl),
          launchRocket_latched _ i hw2]
        simp [hout, h1, h2]
  · rw [(sequencer_timeout _ i (hto.trans ht)).1]
    simp [Outputs.set, hout, h1, h2]

/-- C1: for every reachable state and every tick in which the watchdog
reports a communication timeout, after that tick the compressor output is
off and neither pad valve opens during the tick, regardless of the values
of the launch-request, compressor-request, or pad-selection fields of the
command snapshot (all universally quantified through `s` and `i`). -/
theorem C1_timeout_failsafe (s : PadState) (i : TickInput)
    (h : i.rxTimedOut = true) :
    (updateData s i).1.out.compressor = false ∧
    Event.setOut Chan.pad1Valve true ∉ (updateData s i).2 ∧
    Event.setOut Chan.pad2Valve true ∉ (updateData s i).2 := by
  obtain ⟨-, -, hto, -, -, -, -, -, -, -, -⟩ := midState_fields s i
  obtain ⟨hst, htr⟩ := sequencer_timeout (midState s i) i (hto.trans h)
  rw [updateData_eq]
  refine ⟨by rw [hst]; simp [Outputs.set], ?_, ?_⟩ <;>
    simp [htr, pulseSection_no_setOut]

/-- Witness for C1: a timed-out tick with launch requested, compressor
requested and both pads selected still ends with the compressor output off
and opens no valve. -/
theorem C1_timeout_failsafe_witness :
    timeoutInput.rxTimedOut = true ∧
    ((updateData initialState timeoutInput).1.out.compressor = false ∧
     Event.setOut Chan.pad1Valve true ∉ (updateData initialState timeoutInput).2 ∧
     Event.setOut Chan.pad2Valve true ∉ (updateData initialState timeoutInput).2) :=
  ⟨rfl, C1_timeout_failsafe initialState timeoutInput rfl⟩

/-- C2: in an execution from power-on with no timeout, whenever the master
launch-request flag is observed true on N ≥ 2 consecutive ticks with no
intervening observed-false tick — `win` is the run of observed-true ticks,
starting either at power-on or immediately after a tick that observed the
flag false — the firing sequence executes exactly once across those N
ticks. -/
theorem C2_debounce_single_firing (pre win : List TickInput)
    (hnt : ∀ i ∈ pre ++ win, i.rxTimedOut = false)
    (hwin : ∀ i ∈ win, i.rxLaunchSet = true)
    (hlen : 2 ≤ win.length)
    (hpre : pre = [] ∨ ∃ t j, pre = t ++ [j] ∧ j.rxLaunchSet = false) :
    fireCount (runTicks initialState pre) win = 1 := by
  have hclear : (runTicks initialState pre).wasRocketLaunched = false := by
    rcases hpre with h | ⟨t, j, hpj, hjl⟩
    · rw [h]; rfl
    · rw [hpj, runTicks_append]
      have hjt : j.rxTimedOut = false := hnt j (by simp [hpj])
      simp only [runTicks]
      rw [updateData_latch]
      simp [hjt, hjl]
  exact fireCount_one_of_clear _ win hclear
    (fun i hi => ⟨hnt i (by simp [hi]), hwin i hi⟩)
    (by intro h; rw [h] at hlen; simp at hlen)

/-- Witness for C2: from power-on, two consecutive live launch-request
ticks fire exactly once. -/
theorem C2_debounce_single_firing_witness :
    (∀ i ∈ ([launchInput, launchInput] : List TickInput),
      i.rxLaunchSet = true) ∧
    fireCount (runTicks initialState []) [launchInput, launchInput] = 1 :=
  ⟨by decide,
   C2_debounce_single_firing [] [launchInput, launchInput] (by decide) (by decide)
     (by decide) (Or.inl rfl)⟩

/-- C6: after a firing the launch latch blocks all further firing across
any stretch of ticks none of which observes the launch-request flag false
(observed-true ticks and timed-out ticks, during which the flag is not
observed), and the latch stays set; a live tick observing the flag false
then resets the latch, after which a live tick observing the flag true is
permitted to fire again — the observed true → false → true transition
re-arms. -/
theorem C6_latch_blocks_until_observed_false (s : PadState)
    (l : List TickInput) (j k : TickInput)
    (hlatch : s.wasRocketLaunched = true)
    (hl : ∀ i ∈ l, i.rxTimedOut = true ∨ i.rxLaunchSet = true)
    (hjt : j.rxTimedOut = false) (hjl : j.rxLaunchSet = false)
    (hkt : k.rxTimedOut = false) (hkl : k.rxLaunchSet = true) :
    fireCount s l = 0 ∧
    (runTicks s l).wasRocketLaunched = true ∧
    (updateData (runTicks s l) j).1.wasRocketLaunched = false ∧
    fires (updateData (runTicks s l) j).1 k = true := by
  obtain ⟨h0, h1⟩ := fireCount_zero_of_latched s l hlatch hl
  have h2 : (updateData (runTicks s l) j).1.wasRocketLaunched = false := by
    rw [updateData_latch]; simp [hjt, hjl]
  exact ⟨h0, h1, h2, by simp [fires, hkt, hkl, h2]⟩

/-- Witness for C6: after a firing, a held request tick and a timed-out
tick fire nothing and keep the latch; an observed-false tick clears it and
the next request may fire. -/
theorem C6_latch_blocks_until_observed_false_witness :
    postLaunchState.wasRocketLaunched = true ∧
    (fireCount postLaunchState [launchInput, timeoutInput] = 0 ∧
     (runTicks postLaunchState [launchInput, timeoutInput]).wasRocketLaunched = true ∧
     (updateData (runTicks postLaunchState [launchInput, timeoutInput])
        idleInput).1.wasRocketLaunched = false ∧
     fires (updateData (runTicks postLaunchState [launchInput, timeoutInput])
        idleInput).1 launchInput = true) :=
  ⟨by decide,
   C6_latch_blocks_until_observed_false postLaunchState
     [launchInput, timeoutInput] idleInput launchInput (by decide) (by decide)
     (by decide) (by decide) (by decide) (by decide)⟩

/-- C3: in every execution of the firing sequence, the compressor output
transitions to off strictly before either pad valve output transitions to
on: whenever a valve-open write occurs in a tick, the tick's event list
splits at a compressor-off write preceded by no output write at all and
followed by the valve-open write.  Events of a tick are totally ordered
(the loop is single-threaded), so the two writes are never concurrent. -/
theorem C3_compressor_off_before_valve_open (s : PadState) (i : TickInput)
    (v : Chan) (hv : v = Chan.pad1Valve ∨ v = Chan.pad2Valve)
    (hmem : Event.setOut v true ∈ (updateData s i).2) :
    ∃ t u, (updateData s i).2 = t ++ Event.setOut Chan.compressor false :: u ∧
      (∀ c b, Event.setOut c b ∉ t) ∧ Event.setOut v true ∈ u := by
  obtain ⟨-, -, hto, hls, -, -, -, -, -, -, -⟩ := midState_fields s i
  rw [updateData_eq] at hmem ⊢
  have hvseq : Event.setOut v true ∈ (sequencer (midState s i) i).2 := by
    rcases hv with h | h <;> subst h <;>
      simpa [pulseSection_no_setOut] using hmem
  cases ht : i.rxTimedOut
  · cases hl : i.rxLaunchSet
    · rw [(sequencer_idle _ i (hto.trans ht) (hls.trans hl)).2] at hvseq
      rcases hv with h | h <;> subst h <;> simp at hvseq
    · cases hw2 : (midState s i).wasRocketLaunched
      · obtain ⟨pads, he, -, -, -, -⟩ :=
          launchRocket_fire_trace (midState s i) i hw2
        rw [sequencer_fire _ i (hto.trans ht) (hls.trans hl), he] at hvseq ⊢
        refine ⟨Event.samplePressure i.p1 i.p2 ::
            (pulseSection (readPressure s i).1 i).2,
          pads ++ [Event.hold 100, Event.setOut Chan.pad1Valve false,
            Event.setOut Chan.pad2Valve false,
            Event.samplePressure i.p1post i.p2post],
          by simp, ?_, ?_⟩
        · intro c b
          simp [pulseSection_no_setOut]
        · rcases hv with h | h <;> subst h <;> simpa using hvseq
      · rw [sequencer_fire _ i (hto.trans ht) (hls.trans hl),
          launchRocket_latched _ i hw2] at hvseq
        simp at hvseq
  · rw [(sequencer_timeout _ i (hto.trans ht)).2] at hvseq
    rcases hv with h | h <;> subst h <;> simp at hvseq

/-- Witness for C3: in a concrete firing that opens the pad-1 valve, the
compressor-off write strictly precedes the valve-open write. -/
theorem C3_compressor_off_before_valve_open_witness :
    Event.setOut Chan.pad1Valve true ∈ (updateData initialState launchInput).2 ∧
    (∃ t u, (updateData initialState launchInput).2 =
        t ++ Event.setOut Chan.compressor false :: u ∧
      (∀ c b, Event.setOut c b ∉ t) ∧ Event.setOut Chan.pad1Valve true ∈ u) :=
  ⟨by decide, C3_compressor_off_before_valve_open initialState launchInput
    Chan.pad1Valve (Or.inl rfl) (by decide)⟩

/-- C4: in every firing, the pad-1 valve output is opened iff the
`pad1Selected` field of the command snapshot consumed at the start of the
firing (the value the inbound poll exposed for this tick) is true, and the
pad-2 valve analogously, each decided independently of the other —
including both opening in the same firing. -/
theorem C4_pad_selection_fidelity (s : PadState) (i : TickInput)
    (hfire : fires s i = true) :
    (Event.setOut Chan.pad1Valve true ∈ (updateData s i).2 ↔ i.rxPad1 = true) ∧
    (Event.setOut Chan.pad2Valve true ∈ (updateData s i).2 ↔ i.rxPad2 = true) := by
  have hf := hfire
  simp only [fires, Bool.and_eq_true, Bool.not_eq_true'] at hf
  obtain ⟨⟨ht, hl⟩, hw⟩ := hf
  obtain ⟨hwm, -, hto, hls, -, hp1, hp2, -, -, -, -⟩ := midState_fields s i
  obtain ⟨pads, he, -, -, hif1, hif2⟩ :=
    launchRocket_fire_trace (midState s i) i (hwm.trans hw)
  rw [hp1] at hif1
  rw [hp2] at hif2
  rw [updateData_eq, sequencer_fire _ i (hto.trans ht) (hls.trans hl), he]
  constructor <;> simp [pulseSection_no_setOut, hif1, hif2]

/-- Witness for C4: a concrete firing with pad 1 selected and pad 2 not
selected opens exactly the pad-1 valve. -/
theorem C4_pad_selection_fidelity_witness :
    fires initialState launchInput = true ∧
    ((Event.setOut Chan.pad1Valve true ∈ (updateData initialState launchInput).2 ↔
        launchInput.rxPad1 = true) ∧
     (Event.setOut Chan.pad2Valve true ∈ (updateData initialState launchInput).2 ↔
        launchInput.rxPad2 = true)) :=
  ⟨by decide, C4_pad_selection_fidelity initialState launchInput (by decide)⟩

/-- C5: every firing tick's event list starts with the unconditional
once-per-tick pressure sample and ends with the 100 time-unit hold of the
opened valves, the closing of both valve outputs, and one further pressure
re-sample — and no other pressure sample occurs in between, so the
post-fire re-sample is in addition to exactly one steady-state sample in
the same tick. -/
theorem C5_firing_hold_close_resample (s : PadState) (i : TickInput)
    (hfire : fires s i = true) :
    ∃ mid : List Event,
      (updateData s i).2 =
        Event.samplePressure i.p1 i.p2 :: mid ++
          [Event.hold 100, Event.setOut Chan.pad1Valve false,
           Event.setOut Chan.pad2Valve false,
           Event.samplePressure i.p1post i.p2post] ∧
      ∀ p q, Event.samplePressure p q ∉ mid := by
  have hf := hfire
  simp only [fires, Bool.and_eq_true, Bool.not_eq_true'] at hf
  obtain ⟨⟨ht, hl⟩, hw⟩ := hf
  obtain ⟨hwm, -, hto, hls, -, -, -, -, -, -, -⟩ := midState_fields s i
  obtain ⟨pads, he, hns, -, -, -⟩ :=
    launchRocket_fire_trace (midState s i) i (hwm.trans hw)
  rw [updateData_eq, sequencer_fire _ i (hto.trans ht) (hls.trans hl), he]
  refine ⟨(pulseSection (readPressure s i).1 i).2 ++
    Event.setOut Chan.compressor false :: pads, by simp, ?_⟩
  intro p q
  simp [pulseSection_no_sample, hns]

/-- Witness for C5: the concrete firing tick's trace starts with the
steady-state sample and ends with the hold, the valve closes and the
post-fire re-sample. -/
theorem C5_firing_hold_close_resample_witness :
    fires initialState launchInput = true ∧
    (∃ mid : List Event,
      (updateData initialState launchInput).2 =
        Event.samplePressure launchInput.p1 launchInput.p2 :: mid ++
          [Event.hold 100, Event.setOut Chan.pad1Valve false,
           Event.setOut Chan.pad2Valve false,
           Event.samplePressure launchInput.p1post launchInput.p2post] ∧
      ∀ p q, Event.samplePressure p q ∉ mid) :=
  ⟨by decide, C5_firing_hold_close_resample initialState launchInput (by decide)⟩

/-- C9: a telemetry packet is sent in a tick iff the heartbeat phase flips
to on in that tick (so telemetry goes out once per full period, not every
tick), and every telemetry packet sent carries exactly the pressure sample
taken earlier in that same tick — never a stale or future one. -/
theorem C9_telemetry_rising_edge_fresh_sample (s : PadState) (i : TickInput) :
    ((∃ p q, Event.telemetry p q ∈ (updateData s i).2) ↔
      ((updateData s i).1.pulse = true ∧ s.pulse = false)) ∧
    ∀ p q, Event.telemetry p q ∈ (updateData s i).2 →
      p = i.p1 ∧ q = i.p2 := by
  obtain ⟨hiff, hval⟩ := pulseSection_telemetry (readPressure s i).1 i
  have hpul : (updateData s i).1.pulse =
      (pulseSection (readPressure s i).1 i).1.pulse := by
    rw [updateData_eq]
    exact (sequencer_preserves_clock (midState s i) i).1
  constructor
  · constructor
    · rintro ⟨p, q, hm⟩
      rw [updateData_eq] at hm
      have hm2 : Event.telemetry p q ∈ (pulseSection (readPressure s i).1 i).2 := by
        simpa [sequencer_no_telemetry] using hm
      have hc := hiff.mp ⟨p, q, hm2⟩
      rw [hpul]
      exact hc
    · intro hcon
      rw [hpul] at hcon
      obtain ⟨p, q, hm⟩ := hiff.mpr hcon
      refine ⟨p, q, ?_⟩
      rw [updateData_eq]
      simp [hm]
  · intro p q hm
    rw [updateData_eq] at hm
    have hm2 : Event.telemetry p q ∈ (pulseSection (readPressure s i).1 i).2 := by
      simpa [sequencer_no_telemetry] using hm
    exact hval p q hm2

/-- Witness for C9 at a concrete rising-edge tick. -/
theorem C9_telemetry_rising_edge_fresh_sample_witness :
    ((∃ p q, Event.telemetry p q ∈ (updateData initialState risingInput).2) ↔
      ((updateData initialState risingInput).1.pulse = true ∧
        initialState.pulse = false)) ∧
    ∀ p q, Event.telemetry p q ∈ (updateData initialState risingInput).2 →
      p = risingInput.p1 ∧ q = risingInput.p2 :=
  C9_telemetry_rising_edge_fresh_sample initialState risingInput

/-- C7, divergence evidence: on a concrete live (non-timed-out) tick on
which the heartbeat phase flips to on, the safety LED output stays off and
no safety-LED write occurs during the tick — `updateData` never calls
`blinkSafetyLed` (the function exists in the sketch but is dead code), so
in normal operation no LED follows the heartbeat phase, against the claim
that the safety/arm-indicator LED does. -/
theorem C7_safety_led_not_driven :
    (updateData initialState risingInput).1.pulse = true ∧
    (updateData initialState risingInput).1.packet.masterTimedOut = false ∧
    (updateData initialState risingInput).1.out.safetyLed = false ∧
    ∀ b, Event.setOut Chan.safetyLed b ∉ (updateData initialState risingInput).2 := by
  decide

/-- C8, counterexample: with the last flip recorded at time 0 and the tick
clock at exactly 100, the elapsed time is at least the half-period — so the
claim requires a flip — yet the phase does not flip and the flip timestamp
is not updated: the code flips only when `pulseTime` strictly exceeds
`_pulse_halfwidth_`. -/
theorem C8_no_flip_at_exact_halfperiod :
    (100 : Int) - initialState.timeSinceLastPulse ≥ pulse_halfwidth ∧
    (updateData initialState { now := 100 }).1.pulse = initialState.pulse ∧
    (updateData initialState { now := 100 }).1.timeSinceLastPulse =
      initialState.timeSinceLastPulse := by
  decide

/-- C8 (amended): on every tick the heartbeat phase flips if and only if
the elapsed time since the last flip strictly exceeds the half-period
(100 time-units); a qualifying tick negates the phase exactly once and
records the tick clock as the new flip time (so a tick delayed past a full
period still flips at most once — no double-flip makeup), and a
non-qualifying tick leaves phase and flip time unchanged. -/
theorem C8_flip_iff_elapsed_exceeds_halfperiod (s : PadState) (i : TickInput) :
    (updateData s i).1.pulse =
      (if i.now - s.timeSinceLastPulse > pulse_halfwidth then !s.pulse else s.pulse) ∧
    (updateData s i).1.timeSinceLastPulse =
      (if i.now - s.timeSinceLastPulse > pulse_halfwidth then i.now
       else s.timeSinceLastPulse) := by
  obtain ⟨-, -, -, -, -, -, -, -, -, hpu, htl⟩ := midState_fields s i
  obtain ⟨hsp, hst⟩ := sequencer_preserves_clock (midState s i) i
  rw [updateData_eq]
  exact ⟨hsp.trans hpu, hst.trans htl⟩

/-- C10: at the completion of every tick of every execution from power-on,
both pad valve outputs are off: valve bits are set only inside the firing
sequence, which clears both before returning, so a valve can be open only
during the blocking hold inside a firing and never across a tick
boundary. -/
theorem C10_valves_closed_at_tick_end (l : List TickInput) :
    (runTicks initialState l).out.pad1Valve = false ∧
    (runTicks initialState l).out.pad2Valve = false := by
  suffices h : ∀ s : PadState, s.out.pad1Valve = false → s.out.pad2Valve = false →
      (runTicks s l).out.pad1Valve = false ∧ (runTicks s l).out.pad2Valve = false from
    h initialState rfl rfl
  induction l with
  | nil => exact fun s h1 h2 => ⟨h1, h2⟩
  | cons i is ih =>
    intro s h1 h2
    obtain ⟨g1, g2⟩ := updateData_valves_off s i h1 h2
    exact ih (updateData s i).1 g1 g2

end LaunchPad
